import Mathlib

/-!
Shallow embedding of `status.go` from the MyAnimeStream/arigo repository
(package `arigo`), together with theorems about its JSON serialization
behaviour.  The file models the wire format at the level of parsed JSON
values, and the relevant behaviour of Go's `encoding/json` package on the
declared struct types and tags, translated from the source declarations.
-/

namespace Arigo

/-- A parsed JSON wire value.  Numbers are modelled as integers, which is the
fragment the aria2 protocol and `status.go` use. -/
inductive JSON where
  | null : JSON
  | bool (b : Bool) : JSON
  | num (n : Int) : JSON
  | str (s : String) : JSON
  | arr (elems : List JSON) : JSON
  | obj (fields : List (String × JSON)) : JSON

/-- Errors produced by the modelled slice of `encoding/json`:
`unmarshalType` stands for `*json.UnmarshalTypeError` (a wire value of the
wrong shape for the target Go type), and `stringTag` for the
`json: invalid use of ,string struct tag` errors raised on the quoted
(`json:",string"`) decoding path. -/
inductive GoErr where
  | unmarshalType (value : String) (goType : String) : GoErr
  | stringTag (goType : String) : GoErr
deriving DecidableEq

/-- The wire-kind name of a JSON value, used in error payloads. -/
def JSON.kindName : JSON → String
  | .null => "null"
  | .bool _ => "bool"
  | .num _ => "number"
  | .str _ => "string"
  | .arr _ => "array"
  | .obj _ => "object"

/-- Shallow model of Go's `time.Time`: an instant stored as whole seconds
since the Unix epoch plus a non-negative sub-second nanosecond part; Go
keeps the nanosecond part in `[0, 1e9)`. -/
structure GoTime where
  sec : Int
  nsec : Nat
deriving DecidableEq

/-- `time.Time.Unix()`: the whole-second epoch count of the instant; the
nanosecond part is not consulted, so sub-second precision is discarded by
truncation toward the second boundary below the instant. -/
def GoTime.Unix (t : GoTime) : Int := t.sec

/-- `time.Unix(sec, nsec)`: build the instant `sec` seconds plus `nsec`
nanoseconds since the epoch, normalising `nsec` into `[0, 1e9)` exactly as
the Go function does (Go's `/` on integers truncates toward zero, hence
`Int.tdiv`, followed by the negative-remainder fixup). -/
def timeUnix (sec nsec : Int) : GoTime :=
  if nsec < 0 ∨ 1000000000 ≤ nsec then
    let n := nsec.tdiv 1000000000
    let sec' := sec + n
    let nsec' := nsec - n * 1000000000
    if nsec' < 0 then ⟨sec' - 1, (nsec' + 1000000000).toNat⟩ else ⟨sec', nsec'.toNat⟩
  else ⟨sec, nsec.toNat⟩

/-- `UNIXTime` wraps `time.Time` (src/status.go line 77). -/
structure UNIXTime where
  Time : GoTime
deriving DecidableEq

/-- The embedded `time.Time`'s `Unix()` method as seen on a `UNIXTime`. -/
def UNIXTime.Unix (t : UNIXTime) : Int := t.Time.Unix

/-- `UNIXTime.MarshalJSON` (src/status.go lines 81-83): marshal the wrapped
instant's `Unix()` second count; `json.Marshal` of an `int64` always
succeeds, so the error result is omitted. -/
def UNIXTime.marshalJSON (t : UNIXTime) : JSON := .num t.Unix

/-- `json.Unmarshal(data, &x)` for a target of type `int64`, at the level of
the parsed wire value: an in-range integer is stored; JSON `null` leaves the
target untouched (`.ok none`, per the documented `encoding/json` behaviour
that unmarshaling a JSON null into a non-pointer value has no effect and
produces no error); every other shape, and an out-of-range number, yields an
`UnmarshalTypeError`. -/
def goUnmarshalInt64 : JSON → Except GoErr (Option Int)
  | .null => .ok none
  | .num n =>
      if -9223372036854775808 ≤ n ∧ n ≤ 9223372036854775807 then .ok (some n)
      else .error (.unmarshalType "number" "int64")
  | .bool _ => .error (.unmarshalType "bool" "int64")
  | .str _ => .error (.unmarshalType "string" "int64")
  | .arr _ => .error (.unmarshalType "array" "int64")
  | .obj _ => .error (.unmarshalType "object" "int64")

/-- `UNIXTime.UnmarshalJSON` (src/status.go lines 85-94).  The receiver is
passed in and the final receiver state is returned next to the error result:
the code declares `var ts int64` (zero-valued), unmarshals `data` into it,
returns the error before any assignment to `*t` if one occurred, and
otherwise sets `*t = UNIXTime{time.Unix(ts, 0)}`.  A JSON `null` input
leaves `ts` at `0`, so the receiver is then set to the epoch instant. -/
def UNIXTime.unmarshalJSON (t : UNIXTime) (data : JSON) : UNIXTime × Option GoErr :=
  match goUnmarshalInt64 data with
  | .error e => (t, some e)
  | .ok r => (⟨timeUnix (r.getD 0) 0⟩, none)

/-- Claim C1: UNIXTime round-trip.  For every `UNIXTime` value `t` (whose
second count is an `int64`, as `time.Time.Unix()` guarantees in Go), decoding
the result of encoding `t` succeeds and yields an instant with the same
whole-second epoch value, and for every valid second-granularity integer
`x`, encoding the result of decoding `x` reproduces exactly `x`. -/
theorem C1_unixtime_roundtrip (t0 t : UNIXTime)
    (h1 : -9223372036854775808 ≤ t.Unix) (h2 : t.Unix ≤ 9223372036854775807) :
    (UNIXTime.unmarshalJSON t0 t.marshalJSON).2 = none ∧
    (UNIXTime.unmarshalJSON t0 t.marshalJSON).1.Unix = t.Unix ∧
    ∀ x : Int, -9223372036854775808 ≤ x → x ≤ 9223372036854775807 →
      (UNIXTime.unmarshalJSON t0 (JSON.num x)).2 = none ∧
      (UNIXTime.unmarshalJSON t0 (JSON.num x)).1.marshalJSON = JSON.num x := by
  have hc : -9223372036854775808 ≤ t.Time.sec ∧ t.Time.sec ≤ 9223372036854775807 := ⟨h1, h2⟩
  refine ⟨?_, ?_, fun x hx1 hx2 => ⟨?_, ?_⟩⟩
  · norm_num [UNIXTime.marshalJSON, UNIXTime.unmarshalJSON, goUnmarshalInt64,
      UNIXTime.Unix, GoTime.Unix, hc.1, hc.2]
  · norm_num [UNIXTime.marshalJSON, UNIXTime.unmarshalJSON, goUnmarshalInt64,
      UNIXTime.Unix, GoTime.Unix, timeUnix, hc.1, hc.2]
  · norm_num [UNIXTime.unmarshalJSON, goUnmarshalInt64, hx1, hx2]
  · norm_num [UNIXTime.unmarshalJSON, goUnmarshalInt64, UNIXTime.marshalJSON,
      UNIXTime.Unix, GoTime.Unix, timeUnix, hx1, hx2]

/-- Witness for C1 at the concrete instant 12345 s after the epoch. -/
theorem C1_unixtime_roundtrip_witness :
    (UNIXTime.unmarshalJSON ⟨⟨0, 0⟩⟩ (UNIXTime.marshalJSON ⟨⟨12345, 0⟩⟩)).1.Unix =
      (⟨⟨12345, 0⟩⟩ : UNIXTime).Unix :=
  (C1_unixtime_roundtrip ⟨⟨0, 0⟩⟩ ⟨⟨12345, 0⟩⟩ (by norm_num [UNIXTime.Unix, GoTime.Unix])
    (by norm_num [UNIXTime.Unix, GoTime.Unix])).2.1

/-- Claim C7, counterexample: JSON `null` is a wire value that is not
representable as an integer, yet `UNIXTime.UnmarshalJSON` does not fail on
it: `json.Unmarshal` of `null` into the local `int64` is a documented no-op,
so the method succeeds and stores the epoch instant. -/
theorem C7_counterexample :
    (UNIXTime.unmarshalJSON ⟨⟨9, 5⟩⟩ JSON.null).2 = none ∧
    (UNIXTime.unmarshalJSON ⟨⟨9, 5⟩⟩ JSON.null).1 = ⟨⟨0, 0⟩⟩ := by
  constructor <;> rfl

/-- Claim C7 (amended): given an integer wire value, `UNIXTime` decode
produces the corresponding instant with zero sub-second component; a wire
value that is a string, object, boolean, array, or an integer outside the
`int64` range fails with a type-mismatch error; and JSON `null` — the one
non-integer input that does not fail — is accepted, leaving the local
`int64` at zero so the receiver becomes the epoch instant. -/
theorem C7_unixtime_decode (t0 : UNIXTime) :
    (∀ x : Int, -9223372036854775808 ≤ x → x ≤ 9223372036854775807 →
        UNIXTime.unmarshalJSON t0 (JSON.num x) = (⟨⟨x, 0⟩⟩, none)) ∧
    (∀ s, UNIXTime.unmarshalJSON t0 (JSON.str s) =
        (t0, some (GoErr.unmarshalType "string" "int64"))) ∧
    (∀ fs, UNIXTime.unmarshalJSON t0 (JSON.obj fs) =
        (t0, some (GoErr.unmarshalType "object" "int64"))) ∧
    (∀ b, UNIXTime.unmarshalJSON t0 (JSON.bool b) =
        (t0, some (GoErr.unmarshalType "bool" "int64"))) ∧
    (∀ es, UNIXTime.unmarshalJSON t0 (JSON.arr es) =
        (t0, some (GoErr.unmarshalType "array" "int64"))) ∧
    (∀ x : Int, x < -9223372036854775808 ∨ 9223372036854775807 < x →
        UNIXTime.unmarshalJSON t0 (JSON.num x) =
          (t0, some (GoErr.unmarshalType "number" "int64"))) ∧
    UNIXTime.unmarshalJSON t0 JSON.null = (⟨⟨0, 0⟩⟩, none) := by
  refine ⟨fun x hx1 hx2 => ?_, fun s => rfl, fun fs => rfl, fun b => rfl, fun es => rfl,
    fun x hx => ?_, rfl⟩
  · simp [UNIXTime.unmarshalJSON, goUnmarshalInt64, timeUnix, hx1, hx2]
  · have : ¬ (-9223372036854775808 ≤ x ∧ x ≤ 9223372036854775807) := by omega
    simp [UNIXTime.unmarshalJSON, goUnmarshalInt64, this]

/-- Witness for C7 at the concrete integer 5. -/
theorem C7_unixtime_decode_witness :
    UNIXTime.unmarshalJSON ⟨⟨7, 0⟩⟩ (JSON.num 5) = (⟨⟨5, 0⟩⟩, none) :=
  (C7_unixtime_decode ⟨⟨7, 0⟩⟩).1 5 (by norm_num) (by norm_num)

/-- Claim C8: `UNIXTime.MarshalJSON` produces the signed second count of the
wrapped instant: for an instant `sec` seconds plus `nsec < 1e9` nanoseconds
after the epoch, the output is exactly `sec`, which is the floor (truncation
toward the instant's second boundary, never rounding) of the nanosecond
instant divided by one second, and the sub-second part is discarded: the
output coincides with the encoding of the truncated instant. -/
theorem C8_marshal_truncates (sec : Int) (nsec : Nat) (hn : nsec < 1000000000) :
    UNIXTime.marshalJSON ⟨⟨sec, nsec⟩⟩ = JSON.num sec ∧
    sec = (sec * 1000000000 + (nsec : Int)) / 1000000000 ∧
    UNIXTime.marshalJSON ⟨⟨sec, nsec⟩⟩ = UNIXTime.marshalJSON ⟨⟨sec, 0⟩⟩ := by
  refine ⟨rfl, ?_, rfl⟩
  omega

/-- Witness for C8 at an instant with a sub-second part above one half,
whose rounding would differ from truncation. -/
theorem C8_marshal_truncates_witness :
    UNIXTime.marshalJSON ⟨⟨41, 999999999⟩⟩ = JSON.num 41 :=
  (C8_marshal_truncates 41 999999999 (by norm_num)).1

/-- Claim C9: `UNIXTime.UnmarshalJSON` is atomic on error: whenever it
returns a non-nil error, the receiver is left unchanged, because the error
is returned before the single assignment to `*t`. -/
theorem C9_unmarshal_atomic_on_error (t : UNIXTime) (data : JSON) (e : GoErr)
    (h : (UNIXTime.unmarshalJSON t data).2 = some e) :
    (UNIXTime.unmarshalJSON t data).1 = t := by
  unfold UNIXTime.unmarshalJSON at h ⊢
  cases hg : goUnmarshalInt64 data <;> simp [hg] at h ⊢

/-- Witness for C9 at a concrete failing input (a JSON string). -/
theorem C9_unmarshal_atomic_on_error_witness :
    (UNIXTime.unmarshalJSON ⟨⟨3, 0⟩⟩ (JSON.str "abc")).1 = ⟨⟨3, 0⟩⟩ :=
  C9_unmarshal_atomic_on_error ⟨⟨3, 0⟩⟩ (JSON.str "abc")
    (GoErr.unmarshalType "string" "int64") rfl

/-- `DownloadStatus` (src/status.go line 9) is declared as a plain string
type (`type DownloadStatus string`), not a closed enumeration. -/
abbrev DownloadStatus := String

/-- `StatusActive`: currently downloading/seeding downloads. -/
def StatusActive : DownloadStatus := "active"
/-- `StatusWaiting`: downloads in the queue. -/
def StatusWaiting : DownloadStatus := "waiting"
/-- `StatusPaused`: paused downloads. -/
def StatusPaused : DownloadStatus := "paused"
/-- `StatusError`: downloads stopped because of an error. -/
def StatusError : DownloadStatus := "error"
/-- `StatusCompleted`: stopped and completed downloads. -/
def StatusCompleted : DownloadStatus := "completed"
/-- `StatusRemoved`: downloads removed by the user. -/
def StatusRemoved : DownloadStatus := "removed"

/-- `TorrentMode` (src/status.go line 97) is declared as a plain string type. -/
abbrev TorrentMode := String

/-- `TorrentModeSingle`: the file mode single. -/
def TorrentModeSingle : TorrentMode := "single"
/-- `TorrentModeMulti`: the file mode multi. -/
def TorrentModeMulti : TorrentMode := "multi"

/-- Modelled from the spec: the element type `URI` of `AnnounceList` is
defined elsewhere in the repository (not in src/status.go); the spec calls
the elements of `AnnounceList` "announce-URI values", so a `URI` is modelled
as a single URI string value. -/
abbrev URI := String

/-- Modelled from the spec: `ExitStatus` is defined elsewhere in the
repository (not in src/status.go); the spec describes `ErrorCode` as "the
code of the last error", a non-negative numeric code that is string-encoded
on the wire like the other `json:",string"` numeric fields, so it is
modelled as a natural number. -/
abbrev ExitStatus := Nat

/-- Modelled from the spec: the `File` element type of `Status.Files` is
defined elsewhere in the repository and the spec declares it out of scope
("ordered sequence of file descriptors (type defined elsewhere; not in
scope)"), so a `File` is modelled as a record carrying its raw wire object
unchanged. -/
structure File where
  wire : JSON

/-- `BitTorrentStatusInfo` (src/status.go lines 118-120): information from
the info dictionary. -/
structure BitTorrentStatusInfo where
  Name : String

/-- The Go zero value of `BitTorrentStatusInfo`. -/
def BitTorrentStatusInfo.zero : BitTorrentStatusInfo := ⟨""⟩

/-- The Go zero value of `time.Time` (January 1, year 1, UTC), whose
`Unix()` second count is `-62135596800`. -/
def GoTime.zeroValue : GoTime := ⟨-62135596800, 0⟩

/-- `BitTorrentStatus` (src/status.go lines 107-115).  `AnnounceList` is
declared in the source as `[]URI`, a single-level slice, although its doc
comment reads "List of lists of announce URIs". -/
structure BitTorrentStatus where
  AnnounceList : List URI
  Comment : String
  CreationDateUNIX : UNIXTime
  Mode : TorrentMode
  Info : BitTorrentStatusInfo

/-- The Go zero value of `BitTorrentStatus`. -/
def BitTorrentStatus.zero : BitTorrentStatus :=
  ⟨[], "", ⟨GoTime.zeroValue⟩, "", BitTorrentStatusInfo.zero⟩

/-- `Status` (src/status.go lines 27-74), with the source's field types:
`uint` counters carry the `json:",string"` option, as do `Seeder`,
`VerifyIntegrityPending` and `ErrorCode`; the remaining fields use the
default encoding for their type. -/
structure Status where
  GID : String
  Status : DownloadStatus
  TotalLength : Nat
  CompletedLength : Nat
  UploadLength : Nat
  BitField : String
  DownloadSpeed : Nat
  UploadSpeed : Nat
  InfoHash : String
  NumSeeders : Nat
  Seeder : Bool
  PieceLength : Nat
  NumPieces : Nat
  Connections : Nat
  ErrorCode : ExitStatus
  ErrorMessage : String
  FollowedBy : List String
  Following : String
  BelongsTo : String
  Dir : String
  Files : List File
  BitTorrent : BitTorrentStatus
  VerifiedLength : Nat
  VerifyIntegrityPending : Bool

/-- The Go zero value of `Status`, the receiver `json.Unmarshal` is handed
when decoding into a fresh `&Status{}`. -/
def statusZero : Status :=
  { GID := "", Status := "", TotalLength := 0, CompletedLength := 0, UploadLength := 0,
    BitField := "", DownloadSpeed := 0, UploadSpeed := 0, InfoHash := "", NumSeeders := 0,
    Seeder := false, PieceLength := 0, NumPieces := 0, Connections := 0, ErrorCode := 0,
    ErrorMessage := "", FollowedBy := [], Following := "", BelongsTo := "", Dir := "",
    Files := [], BitTorrent := BitTorrentStatus.zero, VerifiedLength := 0,
    VerifyIntegrityPending := false }

/-- ASCII lower-casing of one character, the relevant case of the folding
`encoding/json` applies when matching wire keys to struct field names. -/
def foldChar (c : Char) : Char :=
  if 'A' ≤ c ∧ c ≤ 'Z' then Char.ofNat (c.toNat + 32) else c

/-- Case-insensitive key comparison: `encoding/json` matches an incoming
object key to a struct field name exactly or, failing that, under case
folding.  The Go field names here are pairwise distinct under folding, so
the two-step match reduces to this single folded comparison. -/
def foldEq (a b : String) : Bool :=
  a.data.map foldChar == b.data.map foldChar

/-- Decoding a wire value into a plain string-kinded field (this covers
`string`, `DownloadStatus` and `TorrentMode` fields): a JSON string is
stored verbatim — no validation against any variant set — JSON `null` is
ignored, and any other shape is an `UnmarshalTypeError`. -/
def storeString (old : String) : JSON → Except GoErr String
  | .null => .ok old
  | .str s => .ok s
  | v => .error (.unmarshalType v.kindName "string")

/-- The numeric value of a list of decimal digits. -/
def digitsVal (l : List Char) : Nat :=
  l.foldl (fun a c => a * 10 + (c.toNat - 48)) 0

/-- `strconv.ParseUint(s, 10, 64)`: a non-empty all-digit string whose value
fits in 64 bits; no sign is permitted and overflow fails. -/
def goParseUint64 (s : String) : Option Nat :=
  if s.data ≠ [] ∧ s.data.all Char.isDigit = true ∧ digitsVal s.data < 18446744073709551616 then
    some (digitsVal s.data)
  else none

/-- Decoding a wire value into a `uint` field carrying the `json:",string"`
option: the wire value must be a JSON string (JSON `null` is ignored; a bare
number or any other shape is an invalid-use-of-`,string`-tag error) whose
contents parse with `strconv.ParseUint`. -/
def storeUintQuoted (old : Nat) : JSON → Except GoErr Nat
  | .null => .ok old
  | .str s =>
      match goParseUint64 s with
      | some n => .ok n
      | none => .error (.stringTag "uint")
  | _ => .error (.stringTag "uint")

/-- Decoding a wire value into a `bool` field carrying the `json:",string"`
option: the wire value must be the JSON string "true" or "false" (JSON
`null` is ignored; a bare boolean or any other shape is an
invalid-use-of-`,string`-tag error). -/
def storeBoolQuoted (old : Bool) : JSON → Except GoErr Bool
  | .null => .ok old
  | .str s =>
      if s = "true" then .ok true
      else if s = "false" then .ok false
      else .error (.stringTag "bool")
  | _ => .error (.stringTag "bool")

/-- Decoding a wire value into the `CreationDateUNIX UNIXTime` field.  The
field's `json:",string"` option is inert: `encoding/json` applies the
`string` option only to fields of string, floating point, integer, or
boolean types, and `UNIXTime` is a struct type, so the raw wire value is
handed to `UNIXTime.UnmarshalJSON` unchanged (including for JSON `null`,
which that method receives and turns into the epoch instant). -/
def storeUNIXTime (old : UNIXTime) (v : JSON) : Except GoErr UNIXTime :=
  match old.unmarshalJSON v with
  | (t, none) => .ok t
  | (_, some e) => .error e

/-- Decoding one element of the `AnnounceList []URI` slice: a `URI` value
decodes from a JSON string; a JSON `null` element leaves the fresh element
at its zero value; any other shape (in particular a nested array) is an
`UnmarshalTypeError`. -/
def storeURIElem : JSON → Except GoErr URI
  | .null => .ok ""
  | .str s => .ok s
  | v => .error (.unmarshalType v.kindName "arigo.URI")

/-- Decoding a wire value into the `AnnounceList []URI` field: the wire
value must be an array (or `null`, which is ignored), each element decoded
as a `URI`. -/
def storeURIList (old : List URI) : JSON → Except GoErr (List URI)
  | .null => .ok old
  | .arr es => es.mapM storeURIElem
  | v => .error (.unmarshalType v.kindName "[]arigo.URI")

/-- Decoding one element of the `FollowedBy []string` slice. -/
def storeStringElem : JSON → Except GoErr String
  | .null => .ok ""
  | .str s => .ok s
  | v => .error (.unmarshalType v.kindName "string")

/-- Decoding a wire value into a `[]string` field. -/
def storeStringList (old : List String) : JSON → Except GoErr (List String)
  | .null => .ok old
  | .arr es => es.mapM storeStringElem
  | v => .error (.unmarshalType v.kindName "[]string")

/-- Decoding one element of the `Files []File` slice: per the modelling of
`File`, a wire object (or `null`) is kept unchanged and any other shape is
an `UnmarshalTypeError`. -/
def storeFileElem : JSON → Except GoErr File
  | .obj fs => .ok ⟨.obj fs⟩
  | .null => .ok ⟨.null⟩
  | v => .error (.unmarshalType v.kindName "arigo.File")

/-- Decoding a wire value into the `Files []File` field. -/
def storeFileList (old : List File) : JSON → Except GoErr (List File)
  | .null => .ok old
  | .arr es => es.mapM storeFileElem
  | v => .error (.unmarshalType v.kindName "[]arigo.File")

/-- Fold an object's key/value pairs, in wire order, through a per-field
store step, stopping at the first error — the shape of `encoding/json`'s
object loop specialised to the structs of this file. -/
def foldFields (step : α → String → JSON → Except GoErr α) :
    α → List (String × JSON) → Except GoErr α
  | acc, [] => .ok acc
  | acc, (k, v) :: rest =>
      match step acc k v with
      | .error e => .error e
      | .ok acc2 => foldFields step acc2 rest

/-- Dispatch one wire key/value pair to the matching `BitTorrentStatusInfo`
field; unknown keys are ignored. -/
def storeInfoField (acc : BitTorrentStatusInfo) (key : String) (v : JSON) :
    Except GoErr BitTorrentStatusInfo :=
  if foldEq key "Name" then (storeString acc.Name v).map fun x => { acc with Name := x }
  else .ok acc

/-- Decoding a wire value into the nested `Info BitTorrentStatusInfo`
field: the wire value must be an object (or `null`, which is ignored). -/
def storeBitTorrentInfo (old : BitTorrentStatusInfo) : JSON → Except GoErr BitTorrentStatusInfo
  | .null => .ok old
  | .obj fs => foldFields storeInfoField old fs
  | v => .error (.unmarshalType v.kindName "arigo.BitTorrentStatusInfo")

/-- Dispatch one wire key/value pair to the matching `BitTorrentStatus`
field (case-insensitive name match); unknown keys are ignored. -/
def storeBitTorrentField (acc : BitTorrentStatus) (key : String) (v : JSON) :
    Except GoErr BitTorrentStatus :=
  if foldEq key "AnnounceList" then
    (storeURIList acc.AnnounceList v).map fun x => { acc with AnnounceList := x }
  else if foldEq key "Comment" then
    (storeString acc.Comment v).map fun x => { acc with Comment := x }
  else if foldEq key "CreationDateUNIX" then
    (storeUNIXTime acc.CreationDateUNIX v).map fun x => { acc with CreationDateUNIX := x }
  else if foldEq key "Mode" then
    (storeString acc.Mode v).map fun x => { acc with Mode := x }
  else if foldEq key "Info" then
    (storeBitTorrentInfo acc.Info v).map fun x => { acc with Info := x }
  else .ok acc

/-- Decoding a wire value into a `BitTorrentStatus`: the wire value must be
an object (or `null`, which is ignored). -/
def storeBitTorrentStatus (old : BitTorrentStatus) : JSON → Except GoErr BitTorrentStatus
  | .null => .ok old
  | .obj fs => foldFields storeBitTorrentField old fs
  | v => .error (.unmarshalType v.kindName "arigo.BitTorrentStatus")

/-- Dispatch one wire key/value pair to the matching `Status` field
(case-insensitive name match, each field decoded per its type and
`json:",string"` option); unknown keys are ignored. -/
def storeStatusField (acc : Status) (key : String) (v : JSON) : Except GoErr Status :=
  if foldEq key "GID" then (storeString acc.GID v).map fun x => { acc with GID := x }
  else if foldEq key "Status" then
    (storeString acc.Status v).map fun x => { acc with Status := x }
  else if foldEq key "TotalLength" then
    (storeUintQuoted acc.TotalLength v).map fun x => { acc with TotalLength := x }
  else if foldEq key "CompletedLength" then
    (storeUintQuoted acc.CompletedLength v).map fun x => { acc with CompletedLength := x }
  else if foldEq key "UploadLength" then
    (storeUintQuoted acc.UploadLength v).map fun x => { acc with UploadLength := x }
  else if foldEq key "BitField" then
    (storeString acc.BitField v).map fun x => { acc with BitField := x }
  else if foldEq key "DownloadSpeed" then
    (storeUintQuoted acc.DownloadSpeed v).map fun x => { acc with DownloadSpeed := x }
  else if foldEq key "UploadSpeed" then
    (storeUintQuoted acc.UploadSpeed v).map fun x => { acc with UploadSpeed := x }
  else if foldEq key "InfoHash" then
    (storeString acc.InfoHash v).map fun x => { acc with InfoHash := x }
  else if foldEq key "NumSeeders" then
    (storeUintQuoted acc.NumSeeders v).map fun x => { acc with NumSeeders := x }
  else if foldEq key "Seeder" then
    (storeBoolQuoted acc.Seeder v).map fun x => { acc with Seeder := x }
  else if foldEq key "PieceLength" then
    (storeUintQuoted acc.PieceLength v).map fun x => { acc with PieceLength := x }
  else if foldEq key "NumPieces" then
    (storeUintQuoted acc.NumPieces v).map fun x => { acc with NumPieces := x }
  else if foldEq key "Connections" then
    (storeUintQuoted acc.Connections v).map fun x => { acc with Connections := x }
  else if foldEq key "ErrorCode" then
    (storeUintQuoted acc.ErrorCode v).map fun x => { acc with ErrorCode := x }
  else if foldEq key "ErrorMessage" then
    (storeString acc.ErrorMessage v).map fun x => { acc with ErrorMessage := x }
  else if foldEq key "FollowedBy" then
    (storeStringList acc.FollowedBy v).map fun x => { acc with FollowedBy := x }
  else if foldEq key "Following" then
    (storeString acc.Following v).map fun x => { acc with Following := x }
  else if foldEq key "BelongsTo" then
    (storeString acc.BelongsTo v).map fun x => { acc with BelongsTo := x }
  else if foldEq key "Dir" then
    (storeString acc.Dir v).map fun x => { acc with Dir := x }
  else if foldEq key "Files" then
    (storeFileList acc.Files v).map fun x => { acc with Files := x }
  else if foldEq key "BitTorrent" then
    (storeBitTorrentStatus acc.BitTorrent v).map fun x => { acc with BitTorrent := x }
  else if foldEq key "VerifiedLength" then
    (storeUintQuoted acc.VerifiedLength v).map fun x => { acc with VerifiedLength := x }
  else if foldEq key "VerifyIntegrityPending" then
    (storeBoolQuoted acc.VerifyIntegrityPending v).map
      fun x => { acc with VerifyIntegrityPending := x }
  else .ok acc

/-- `json.Unmarshal` of a wire value into a `Status` receiver: the wire
value must be an object (or `null`, which is ignored). -/
def decodeStatus (old : Status) : JSON → Except GoErr Status
  | .null => .ok old
  | .obj fs => foldFields storeStatusField old fs
  | v => .error (.unmarshalType v.kindName "arigo.Status")

/-- Go's boolean literal text, as written by the quoted bool encoder. -/
def encodeBool (b : Bool) : String := if b then "true" else "false"

/-- `json.Marshal` of a `BitTorrentStatus`: fields in declaration order
under their Go names.  `CreationDateUNIX` is written as the bare output of
`UNIXTime.MarshalJSON`: the `json:",string"` option applies only to fields
of basic kinds, so on this struct-typed field the marshaler output is not
wrapped in a string. -/
def encodeBitTorrentStatus (b : BitTorrentStatus) : JSON :=
  .obj [("AnnounceList", .arr (b.AnnounceList.map JSON.str)),
        ("Comment", .str b.Comment),
        ("CreationDateUNIX", b.CreationDateUNIX.marshalJSON),
        ("Mode", .str b.Mode),
        ("Info", .obj [("Name", .str b.Info.Name)])]

/-- `json.Marshal` of a `Status`: fields in declaration order under their Go
names; every field carrying the `json:",string"` option (the `uint`
counters, `ErrorCode`, and the two booleans) is written as a JSON string
wrapping its plain encoding. -/
def encodeStatus (s : Status) : JSON :=
  .obj [("GID", .str s.GID),
        ("Status", .str s.Status),
        ("TotalLength", .str (toString s.TotalLength)),
        ("CompletedLength", .str (toString s.CompletedLength)),
        ("UploadLength", .str (toString s.UploadLength)),
        ("BitField", .str s.BitField),
        ("DownloadSpeed", .str (toString s.DownloadSpeed)),
        ("UploadSpeed", .str (toString s.UploadSpeed)),
        ("InfoHash", .str s.InfoHash),
        ("NumSeeders", .str (toString s.NumSeeders)),
        ("Seeder", .str (encodeBool s.Seeder)),
        ("PieceLength", .str (toString s.PieceLength)),
        ("NumPieces", .str (toString s.NumPieces)),
        ("Connections", .str (toString s.Connections)),
        ("ErrorCode", .str (toString s.ErrorCode)),
        ("ErrorMessage", .str s.ErrorMessage),
        ("FollowedBy", .arr (s.FollowedBy.map JSON.str)),
        ("Following", .str s.Following),
        ("BelongsTo", .str s.BelongsTo),
        ("Dir", .str s.Dir),
        ("Files", .arr (s.Files.map File.wire)),
        ("BitTorrent", encodeBitTorrentStatus s.BitTorrent),
        ("VerifiedLength", .str (toString s.VerifiedLength)),
        ("VerifyIntegrityPending", .str (encodeBool s.VerifyIntegrityPending))]

/-- The field list of an encoded object. -/
def objFields : JSON → List (String × JSON)
  | .obj fs => fs
  | _ => []

/-- Look a key up in an encoded object's field list (exact match). -/
def lookupField (fs : List (String × JSON)) (k : String) : Option JSON :=
  (fs.find? fun p => p.1 == k).map Prod.snd

/-- The concrete `BitTorrentStatus` used to exercise claim C2: its creation
date is the instant 12345 seconds after the epoch. -/
def c2BT : BitTorrentStatus :=
  { BitTorrentStatus.zero with CreationDateUNIX := ⟨⟨12345, 0⟩⟩ }

/-- Claim C2, checked at a concrete input: the `json:",string"` option
applies only to fields of basic kinds, so on the struct-typed field
`CreationDateUNIX` it is inert.  Encoding writes the field as a bare integer
(not a string-wrapped one); decoding rejects the string-wrapped form the
claim requires, and accepts exactly the bare integer.  The claimed nested
string encoding is therefore neither produced on encode nor accepted on
decode, and cannot be preserved by a round trip. -/
theorem C2_creation_date_not_string_wrapped :
    lookupField (objFields (encodeBitTorrentStatus c2BT)) "CreationDateUNIX" =
      some (JSON.num 12345) ∧
    storeBitTorrentStatus BitTorrentStatus.zero
        (JSON.obj [("creationDateUNIX", JSON.str "12345")]) =
      .error (.unmarshalType "string" "int64") ∧
    storeBitTorrentStatus BitTorrentStatus.zero
        (JSON.obj [("creationDateUNIX", JSON.num 12345)]) =
      .ok { BitTorrentStatus.zero with CreationDateUNIX := ⟨⟨12345, 0⟩⟩ } := by
  refine ⟨rfl, rfl, rfl⟩

/-- Claim C3, checked at the failing input: `AnnounceList` is declared as the
single-level slice `[]URI`, so decoding a wire `announceList` in the
documented list-of-lists form `[["http://tracker.example/announce"]]` fails
(the inner array cannot decode into a `URI` value), while a flat array of
URI strings decodes to a single-level sequence — never to the single-element
outer sequence containing a single-element inner sequence that the claim
(and the field's own doc comment, "List of lists of announce URIs")
describes. -/
theorem C3_announce_list_flat :
    storeBitTorrentStatus BitTorrentStatus.zero
        (JSON.obj [("announceList",
           JSON.arr [JSON.arr [JSON.str "http://tracker.example/announce"]])]) =
      .error (.unmarshalType "array" "arigo.URI") ∧
    decodeStatus statusZero
        (JSON.obj [("bitTorrent",
           JSON.obj [("announceList",
             JSON.arr [JSON.arr [JSON.str "http://tracker.example/announce"]])])]) =
      .error (.unmarshalType "array" "arigo.URI") ∧
    storeBitTorrentStatus BitTorrentStatus.zero
        (JSON.obj [("announceList", JSON.arr [JSON.str "http://tracker.example/announce"])]) =
      .ok { BitTorrentStatus.zero with
              AnnounceList := ["http://tracker.example/announce"] } := by
  refine ⟨rfl, rfl, rfl⟩

/-- Claim C4, counterexample: decoding the unrecognized string "bogus" into
the `Status` field neither fails with an unknown-enum-value error nor yields
a documented unknown sentinel variant — the code declares no such sentinel —
it silently succeeds, storing the raw string itself, a value outside the
recognized variant set. -/
theorem C4_counterexample :
    decodeStatus statusZero (JSON.obj [("status", JSON.str "bogus")]) =
      .ok { statusZero with Status := "bogus" } ∧
    ("bogus" : DownloadStatus) ≠ StatusActive ∧
    ("bogus" : DownloadStatus) ≠ StatusWaiting ∧
    ("bogus" : DownloadStatus) ≠ StatusPaused ∧
    ("bogus" : DownloadStatus) ≠ StatusError ∧
    ("bogus" : DownloadStatus) ≠ StatusCompleted ∧
    ("bogus" : DownloadStatus) ≠ StatusRemoved := by
  exact ⟨rfl, by decide, by decide, by decide, by decide, by decide, by decide⟩

/-- Claim C4 (amended): `DownloadStatus` and `TorrentMode` are open string
types: decoding any JSON string into them succeeds and preserves the string
verbatim — a recognized literal such as "active" or "single" yields the
corresponding variant, while an unrecognized string such as "bogus" is
silently kept as-is, outside the variant set, with neither an error nor a
sentinel — and only a non-string wire value fails. -/
theorem C4_enum_decode_open (old : String) :
    (∀ s, storeString old (JSON.str s) = .ok s) ∧
    decodeStatus statusZero (JSON.obj [("status", JSON.str "active")]) =
      .ok { statusZero with Status := StatusActive } ∧
    storeBitTorrentStatus BitTorrentStatus.zero (JSON.obj [("mode", JSON.str "single")]) =
      .ok { BitTorrentStatus.zero with Mode := TorrentModeSingle } ∧
    storeBitTorrentStatus BitTorrentStatus.zero (JSON.obj [("mode", JSON.str "bogus")]) =
      .ok { BitTorrentStatus.zero with Mode := "bogus" } ∧
    decodeStatus statusZero (JSON.obj [("status", JSON.num 3)]) =
      .error (.unmarshalType "number" "string") := by
  exact ⟨fun s => rfl, rfl, rfl, rfl, rfl⟩

/-- Witness for C4's amended theorem at a concrete unrecognized string. -/
theorem C4_enum_decode_open_witness :
    storeString "" (JSON.str "zzz") = .ok "zzz" :=
  (C4_enum_decode_open "").1 "zzz"

/-- Claim C5: decoding the string-encoded numeric fields of `Status`:
the string "0" yields 0; the string "18446744073709551615" (the largest
64-bit unsigned value) yields that integer; the non-numeric string "abc"
fails with a malformed-numeric-field decode error (also shown at the
`Status` level on the `totalLength` field); and in general any non-empty
all-digit decimal string whose positional value fits in 64 bits decodes to
exactly that value. -/
theorem C5_numeric_string_fields (old : Nat) :
    storeUintQuoted old (JSON.str "0") = .ok 0 ∧
    storeUintQuoted old (JSON.str "18446744073709551615") = .ok 18446744073709551615 ∧
    storeUintQuoted old (JSON.str "abc") = .error (.stringTag "uint") ∧
    decodeStatus statusZero (JSON.obj [("totalLength", JSON.str "abc")]) =
      .error (.stringTag "uint") ∧
    ∀ s : String, s.data ≠ [] → s.data.all Char.isDigit = true →
      digitsVal s.data < 18446744073709551616 →
      storeUintQuoted old (JSON.str s) = .ok (digitsVal s.data) := by
  refine ⟨rfl, rfl, rfl, rfl, fun s h1 h2 h3 => ?_⟩
  simp [storeUintQuoted, goParseUint64, h1, h2, h3]

/-- Witness for C5 at the concrete decimal string "42". -/
theorem C5_numeric_string_fields_witness :
    storeUintQuoted 3 (JSON.str "42") = .ok (digitsVal "42".data) :=
  (C5_numeric_string_fields 3).2.2.2.2 "42" (by decide) (by decide) (by decide)

/-- The concrete wire message of claim C6. -/
def c6Wire : JSON :=
  .obj [("totalLength", .str "1000"), ("completedLength", .str "500"),
        ("status", .str "active")]

/-- The `Status` that decoding `c6Wire` produces. -/
def c6Decoded : Status :=
  { statusZero with TotalLength := 1000, CompletedLength := 500, Status := "active" }

/-- Claim C6: decoding a wire message with `totalLength:"1000"`,
`completedLength:"500"`, `status:"active"` yields a `Status` with
`TotalLength = 1000`, `CompletedLength = 500`, `Status = Active`, and
re-encoding that `Status` reproduces the original string-encoded numeric
field values bit-for-bit ("1000" and "500"). -/
theorem C6_end_to_end :
    decodeStatus statusZero c6Wire = .ok c6Decoded ∧
    c6Decoded.TotalLength = 1000 ∧
    c6Decoded.CompletedLength = 500 ∧
    c6Decoded.Status = StatusActive ∧
    lookupField (objFields (encodeStatus c6Decoded)) "TotalLength" =
      some (JSON.str "1000") ∧
    lookupField (objFields (encodeStatus c6Decoded)) "CompletedLength" =
      some (JSON.str "500") := by
  refine ⟨rfl, rfl, rfl, rfl, rfl, rfl⟩

/-- Claim C10: the boolean fields `Seeder` and `VerifyIntegrityPending`
carry the `json:",string"` option, so — like the numeric counters — they are
string-encoded on the wire: they decode from the quoted strings
"true"/"false", reject bare JSON booleans, and re-encode to the quoted
strings "true"/"false" for every `Status` value. -/
theorem C10_bool_fields_string_encoded :
    decodeStatus statusZero (JSON.obj [("seeder", JSON.str "true")]) =
      .ok { statusZero with Seeder := true } ∧
    decodeStatus statusZero (JSON.obj [("seeder", JSON.str "false")]) = .ok statusZero ∧
    decodeStatus statusZero (JSON.obj [("verifyIntegrityPending", JSON.str "true")]) =
      .ok { statusZero with VerifyIntegrityPending := true } ∧
    decodeStatus statusZero (JSON.obj [("seeder", JSON.bool true)]) =
      .error (.stringTag "bool") ∧
    decodeStatus statusZero (JSON.obj [("verifyIntegrityPending", JSON.bool false)]) =
      .error (.stringTag "bool") ∧
    ∀ st : Status,
      lookupField (objFields (encodeStatus st)) "Seeder" =
        some (JSON.str (if st.Seeder then "true" else "false")) ∧
      lookupField (objFields (encodeStatus st)) "VerifyIntegrityPending" =
        some (JSON.str (if st.VerifyIntegrityPending then "true" else "false")) := by
  exact ⟨rfl, rfl, rfl, rfl, rfl, fun st => ⟨rfl, rfl⟩⟩

end Arigo
